import Mathlib

/-!
# Verification of the AirFit server persistence/scheduler subsystem

Shallow embedding of `server/scheduler.py`, `server/context_store.py` and
`server/exercise_store.py`, together with theorems settling the spec claims.

Modelling conventions:
* Python `float` arithmetic is modelled over `ℚ` (exact rational arithmetic).
* Scheduler timestamps (ISO strings converted with `datetime.fromisoformat`
  and subtracted, then divided into hours) are modelled directly as rational
  numbers measured in hours, so `hours_since = now - last`.
* Context-store cache timestamps (`time.time()` floats, seconds) are rational
  numbers; stored ISO-timestamp strings (which the code never does arithmetic
  on) stay `String`, passed in as a `nowIso` parameter where the code calls
  `datetime.now().isoformat()`.
* Python dicts keyed by date strings become association lists with
  replace-or-append insertion, which matches dict update on unique keys.
* `json.dump`/`json.load` round-tripping of well-formed data is the identity,
  so the persisted file is `FileContent.valid store`; an unparseable file is
  `FileContent.corrupt` and a missing file `FileContent.missing`.
-/

namespace scheduler

/-- A small JSON value universe, used to state what `asdict`/`json.dump`
serialize for the scheduler state file. -/
inductive SJson where
  | null : SJson
  | bool (b : Bool) : SJson
  | num (q : ℚ) : SJson
  | str (s : String) : SJson
deriving DecidableEq

/-- `Optional[float-like timestamp]` serialized: `None ↦ null`. -/
def optNum : Option ℚ → SJson
  | none => SJson.null
  | some q => SJson.num q

/-- `Optional[str]` serialized: `None ↦ null`. -/
def optStr : Option String → SJson
  | none => SJson.null
  | some s => SJson.str s

/-- `SchedulerState` dataclass of `scheduler.py` (lines 29-45), with the
field defaults of the source. Timestamps are in hours (see module header). -/
structure SchedulerState where
  last_insight_generation : Option ℚ := none
  last_hevy_sync : Option ℚ := none
  last_pattern_analysis : Option ℚ := none
  insights_generated_today : ℤ := 0
  is_generating : Bool := false
  generation_error : Option String := none
  insight_generation_interval_hours : ℚ := 6
  hevy_sync_interval_hours : ℚ := 1
deriving DecidableEq

/-- `SchedulerState.to_dict`, i.e. `dataclasses.asdict`: every field of the
dataclass appears in the serialized dictionary. -/
def SchedulerState.to_dict (s : SchedulerState) : List (String × SJson) :=
  [("last_insight_generation", optNum s.last_insight_generation),
   ("last_hevy_sync", optNum s.last_hevy_sync),
   ("last_pattern_analysis", optNum s.last_pattern_analysis),
   ("insights_generated_today", SJson.num s.insights_generated_today),
   ("is_generating", SJson.bool s.is_generating),
   ("generation_error", optStr s.generation_error),
   ("insight_generation_interval_hours", SJson.num s.insight_generation_interval_hours),
   ("hevy_sync_interval_hours", SJson.num s.hevy_sync_interval_hours)]

/-- `SchedulerState()` with all defaults, as returned by
`load_scheduler_state` on a missing or unparseable file. -/
def initState : SchedulerState := {}

/-- Outcome of the `await insight_engine.generate_insights(...)` call:
either a list of insights (modelled by its length) finishing at some time,
or an exception with a message. -/
inductive GenOutcome where
  | success (n : ℕ) (doneAt : ℚ) : GenOutcome
  | failure (msg : String) : GenOutcome
deriving DecidableEq

/-- The status dict returned by `run_insight_generation`. -/
inductive RunResult where
  | alreadyRunning (startedAt : Option ℚ) : RunResult
  | skipped (hoursSince nextRunInHours : ℚ) : RunResult
  | success (insightsGenerated : ℕ) (timestamp : ℚ) : RunResult
  | error (msg : String) : RunResult
deriving DecidableEq

/-- `run_insight_generation` (scheduler.py lines 72-139), as a function of
the loaded state, the current time, the `force` flag and the generator
outcome.  Returns the status dict together with the list of states passed to
`save_scheduler_state`, in order (the code saves once to mark the run as
generating, and once on completion). -/
def run_insight_generation (st : SchedulerState) (now : ℚ) (force : Bool)
    (gen : GenOutcome) : RunResult × List SchedulerState :=
  if st.is_generating = true ∧ force = false then
    (RunResult.alreadyRunning st.last_insight_generation, [])
  else
    let skip? : Option (ℚ × ℚ) :=
      if force = true then none
      else
        match st.last_insight_generation with
        | none => none
        | some last =>
          let hoursSince := now - last
          if hoursSince < st.insight_generation_interval_hours then
            some (hoursSince, st.insight_generation_interval_hours - hoursSince)
          else none
    match skip? with
    | some hs => (RunResult.skipped hs.1 hs.2, [])
    | none =>
      let marked : SchedulerState :=
        { st with is_generating := true, generation_error := none }
      match gen with
      | GenOutcome.success n doneAt =>
        let finished : SchedulerState :=
          { marked with
              is_generating := false,
              last_insight_generation := some doneAt,
              insights_generated_today := marked.insights_generated_today + n }
        (RunResult.success n doneAt, [marked, finished])
      | GenOutcome.failure msg =>
        let failed : SchedulerState :=
          { marked with is_generating := false, generation_error := some msg }
        (RunResult.error msg, [marked, failed])

end scheduler

namespace context_store

/-- `NutritionSnapshot` dataclass (context_store.py lines 45-56), with the
source's defaults. -/
structure NutritionSnapshot where
  calories : ℤ := 0
  protein : ℤ := 0
  carbs : ℤ := 0
  fat : ℤ := 0
  entry_count : ℤ := 0
  protein_per_lb : Option ℚ := none
  caloric_balance : Option ℤ := none
deriving DecidableEq

/-- `HealthSnapshot` dataclass (context_store.py lines 59-91). -/
structure HealthSnapshot where
  steps : ℤ := 0
  active_calories : ℤ := 0
  weight_lbs : Option ℚ := none
  body_fat_pct : Option ℚ := none
  lean_mass_lbs : Option ℚ := none
  sleep_hours : Option ℚ := none
  resting_hr : Option ℤ := none
  hrv_ms : Option ℚ := none
  vo2_max : Option ℚ := none
  sleep_efficiency : Option ℚ := none
  sleep_deep_pct : Option ℚ := none
  sleep_core_pct : Option ℚ := none
  sleep_rem_pct : Option ℚ := none
  sleep_onset_minutes : Option ℤ := none
  hrv_baseline_ms : Option ℚ := none
  hrv_deviation_pct : Option ℚ := none
  bedtime_consistency : Option String := none
  quality_score : Option ℚ := none
  quality_flags : List String := []
  is_baseline_excluded : Bool := false
deriving DecidableEq

/-- One entry of `WorkoutSnapshot.exercises`; the source keeps these as raw
dicts `{name, sets, total_reps, max_weight_kg}` (context_store.py line 103). -/
structure ExerciseEntry where
  name : String
  sets : ℤ
  total_reps : ℤ
  max_weight_kg : ℚ
deriving DecidableEq

/-- `WorkoutSnapshot` dataclass (context_store.py lines 94-106). -/
structure WorkoutSnapshot where
  workout_count : ℤ := 0
  total_duration_minutes : ℤ := 0
  total_volume_kg : ℚ := 0
  exercises : List ExerciseEntry := []
  workout_titles : List String := []
deriving DecidableEq

/-- `DailySnapshot` dataclass (context_store.py lines 109-129).  The stored
dict produced by `asdict`-style conversion round-trips to the same record, so
a single type serves both the dataclass and its dict form. -/
structure DailySnapshot where
  date : String
  nutrition : NutritionSnapshot := {}
  health : HealthSnapshot := {}
  workout : WorkoutSnapshot := {}
  last_updated : String := ""
  sources_synced : List String := []
deriving DecidableEq

/-- `Insight` dataclass (context_store.py lines 132-165).  `supporting_data`
is a free-form JSON map, modelled as a string-keyed association list. -/
structure Insight where
  id : String
  created_at : String
  category : String
  tier : ℤ
  title : String
  body : String
  supporting_data : List (String × String) := []
  importance : ℚ := 1/2
  confidence : ℚ := 1/2
  novelty : ℚ := 1
  actionability : ℚ := 1/2
  suggested_actions : List String := []
  conversation_context : String := ""
  surfaced_at : Option String := none
  engagement : Option String := none
  dismissed_at : Option String := none
  user_feedback : Option String := none
deriving DecidableEq

/-- `ContextStore` dataclass (context_store.py lines 168-179).  The
`snapshots` dict is an association list keyed by date string. -/
structure ContextStore where
  snapshots : List (String × DailySnapshot) := []
  insights : List Insight := []
  last_sync : String := ""
  version : ℤ := 1
deriving DecidableEq

/-- Python-dict lookup on an association list (first matching key). -/
def lookupD {β : Type} (key : String) : List (String × β) → Option β
  | [] => none
  | (k, v) :: rest => if k = key then some v else lookupD key rest

/-- Python-dict assignment `d[key] = v`: replace the first binding of `key`,
or append a new binding. -/
def insertD {β : Type} (key : String) (v : β) : List (String × β) → List (String × β)
  | [] => [(key, v)]
  | (k, w) :: rest =>
    if k = key then (key, v) :: rest else (k, w) :: insertD key v rest

/-- Contents of `context_store.json` on disk: absent, unparseable, or a
well-formed serialized store. -/
inductive FileContent where
  | missing : FileContent
  | corrupt : FileContent
  | valid (s : ContextStore) : FileContent
deriving DecidableEq

/-- `True` exactly when the file parses as a store. -/
def FileContent.isValid : FileContent → Bool
  | FileContent.valid _ => true
  | _ => false

/-- The load-or-empty pattern shared by `load_store`, `upsert_snapshot`,
`_atomic_update_snapshot` and `add_insight`: a missing file or a
`json.JSONDecodeError`/`KeyError` yields a fresh `ContextStore()`. -/
def readContextFile : FileContent → ContextStore
  | FileContent.valid s => s
  | _ => {}

/-- `CACHE_TTL_SECONDS = 5.0` (context_store.py line 42). -/
def CACHE_TTL_SECONDS : ℚ := 5

/-- The module-level mutable state of context_store.py: the on-disk file plus
the in-memory cache `_cache` / `_cache_timestamp` (lines 40-41). -/
structure CtxGlobal where
  file : FileContent
  cache : Option ContextStore := none
  cache_timestamp : ℚ := 0
deriving DecidableEq

/-- `load_store` (context_store.py lines 187-227): serve a fresh cache hit,
otherwise read the file (treating missing/corrupt as empty) and repopulate
the cache.  Returns the store together with the updated module state. -/
def load_store (g : CtxGlobal) (now : ℚ) : ContextStore × CtxGlobal :=
  match g.cache with
  | some c =>
    if now - g.cache_timestamp < CACHE_TTL_SECONDS then (c, g)
    else
      let s := readContextFile g.file
      (s, { g with cache := some s, cache_timestamp := now })
  | none =>
    let s := readContextFile g.file
    (s, { g with cache := some s, cache_timestamp := now })

/-- `get_snapshot` (context_store.py lines 251-265); rebuilding the dataclass
from the stored dict is the identity in this model. -/
def get_snapshot (g : CtxGlobal) (date_str : String) (now : ℚ) :
    Option DailySnapshot × CtxGlobal :=
  let sg := load_store g now
  (lookupD date_str sg.1.snapshots, sg.2)

/-- `save_store` (context_store.py lines 230-248): rewrite the whole file
with `last_sync := now` and repopulate the cache with the in-memory store
object (whose own `last_sync` the code does not touch). -/
def save_store (_g : CtxGlobal) (store : ContextStore) (now : ℚ) (nowIso : String) :
    CtxGlobal :=
  { file := FileContent.valid { store with last_sync := nowIso },
    cache := some store,
    cache_timestamp := now }

/-- `upsert_snapshot` (context_store.py lines 268-319): under the lock,
reload from disk (bypassing the cache), overwrite the date's entry with the
snapshot (fresh `last_updated`), rewrite the file, repopulate the cache. -/
def upsert_snapshot (g : CtxGlobal) (snapshot : DailySnapshot) (now : ℚ)
    (nowIso : String) : CtxGlobal :=
  let snapshot_dict : DailySnapshot := { snapshot with last_updated := nowIso }
  let store := readContextFile g.file
  let store' := { store with
    snapshots := insertD snapshot.date snapshot_dict store.snapshots }
  { file := FileContent.valid { store' with last_sync := nowIso },
    cache := some store',
    cache_timestamp := now }

/-- The `field`/`value` pair passed to `_atomic_update_snapshot`; the three
callers `update_nutrition`/`update_health`/`update_workout` always pass a
value matching the field name. -/
inductive FieldUpdate where
  | nutrition (v : NutritionSnapshot) : FieldUpdate
  | health (v : HealthSnapshot) : FieldUpdate
  | workout (v : WorkoutSnapshot) : FieldUpdate
deriving DecidableEq

/-- `snapshot_dict[field] = asdict(value)` (context_store.py line 363). -/
def applyFieldUpdate (s : DailySnapshot) : FieldUpdate → DailySnapshot
  | FieldUpdate.nutrition v => { s with nutrition := v }
  | FieldUpdate.health v => { s with health := v }
  | FieldUpdate.workout v => { s with workout := v }

/-- The tag merge of `_atomic_update_snapshot` (context_store.py lines
350-352): `if source_tag not in sources: sources.append(source_tag)`. -/
def mergeTag (source_tag : String) (sources : List String) : List String :=
  if source_tag ∈ sources then sources else sources ++ [source_tag]

/-- `_atomic_update_snapshot` (context_store.py lines 322-379): reload from
disk, merge the source tag into the date's `sources_synced`, keep the other
sections of the existing record (or dataclass defaults if the date is new),
overwrite the one updated section, rewrite file and cache. -/
def atomic_update_snapshot (g : CtxGlobal) (date_str : String)
    (upd : FieldUpdate) (source_tag : String) (now : ℚ) (nowIso : String) :
    CtxGlobal :=
  let store := readContextFile g.file
  let existing := lookupD date_str store.snapshots
  let sources0 := (existing.map (fun e => e.sources_synced)).getD []
  let sources := mergeTag source_tag sources0
  let snapshot_dict : DailySnapshot :=
    { date := date_str
      nutrition := (existing.map (fun e => e.nutrition)).getD {}
      health := (existing.map (fun e => e.health)).getD {}
      workout := (existing.map (fun e => e.workout)).getD {}
      last_updated := nowIso
      sources_synced := sources }
  let snapshot_dict := applyFieldUpdate snapshot_dict upd
  let store' := { store with snapshots := insertD date_str snapshot_dict store.snapshots }
  { file := FileContent.valid { store' with last_sync := nowIso },
    cache := some store',
    cache_timestamp := now }

/-- `add_insight` (context_store.py lines 432-473). -/
def add_insight (g : CtxGlobal) (insight : Insight) (now : ℚ) (nowIso : String) :
    CtxGlobal :=
  let store := readContextFile g.file
  let store' := { store with insights := store.insights ++ [insight] }
  { file := FileContent.valid { store' with last_sync := nowIso },
    cache := some store',
    cache_timestamp := now }

/-- Python truthiness of an `Optional[str]`: `None` and `""` are falsy. -/
def truthyStr : Option String → Bool
  | none => false
  | some s => if s = "" then false else true

/-- Python truthiness of an `Optional[int]`: `None` and `0` are falsy. -/
def truthyInt : Option ℤ → Bool
  | none => false
  | some t => if t = 0 then false else true

/-- The three `continue` filters of `get_insights` (context_store.py lines
487-495), with Python truthiness: a `None`/empty category, a `None`/zero
tier, are no filter at all. -/
def passesFilters (category : Option String) (tier : Option ℤ)
    (include_dismissed : Bool) (i : Insight) : Bool :=
  (!(truthyStr category) || i.category == category.getD "") &&
  (!(truthyInt tier) || i.tier == tier.getD 0) &&
  (include_dismissed || !(truthyStr i.dismissed_at))

/-- The ranking relation of `get_insights`: Python's
`sort(key=lambda i: (importance*confidence, created_at), reverse=True)`
orders by the score product descending, breaking ties by `created_at`
descending (ISO strings compare lexicographically). -/
def insightOrder (a b : Insight) : Prop :=
  b.importance * b.confidence < a.importance * a.confidence ∨
    (a.importance * a.confidence = b.importance * b.confidence ∧
      b.created_at ≤ a.created_at)

instance (a b : Insight) : Decidable (insightOrder a b) := by
  unfold insightOrder; infer_instance

/-- Boolean comparator for the stable sort. -/
def insightSortLE (a b : Insight) : Bool := decide (insightOrder a b)

/-- `get_insights` (context_store.py lines 476-505): filter, sort by
(importance*confidence, created_at) descending (Python's stable sort with
`reverse=True` is a stable merge sort under `insightSortLE`), truncate. -/
def get_insights (store : ContextStore) (category : Option String)
    (tier : Option ℤ) (limit : ℕ) (include_dismissed : Bool) : List Insight :=
  let insights := store.insights.filter (passesFilters category tier include_dismissed)
  (insights.mergeSort insightSortLE).take limit

/-- The per-insight mutation of `update_insight_engagement` (context_store.py
lines 513-519): set `engagement`; keep a truthy `surfaced_at`, else stamp it
now; stamp `dismissed_at` on a "dismissed" engagement; overwrite
`user_feedback` only with truthy feedback. -/
def applyEngagement (i : Insight) (engagement : String) (feedback : Option String)
    (nowIso : String) : Insight :=
  { i with
    engagement := some engagement
    surfaced_at :=
      match i.surfaced_at with
      | some s => if s = "" then some nowIso else some s
      | none => some nowIso
    dismissed_at := if engagement = "dismissed" then some nowIso else i.dismissed_at
    user_feedback :=
      match feedback with
      | some f => if f = "" then i.user_feedback else some f
      | none => i.user_feedback }

/-- The `for ... if ... break` loop of `update_insight_engagement`: mutate
the first insight whose id matches, leave everything else alone. -/
def updateEngagementList (insight_id engagement : String) (feedback : Option String)
    (nowIso : String) : List Insight → List Insight
  | [] => []
  | i :: rest =>
    if i.id = insight_id then applyEngagement i engagement feedback nowIso :: rest
    else i :: updateEngagementList insight_id engagement feedback nowIso rest

/-- `update_insight_engagement` (context_store.py lines 508-522), as the
store transformation it performs between `load_store` and `save_store`. -/
def update_insight_engagement (store : ContextStore) (insight_id engagement : String)
    (feedback : Option String) (nowIso : String) : ContextStore :=
  { store with
    insights := updateEngagementList insight_id engagement feedback nowIso store.insights }

/-- `compute_ema`'s loop (context_store.py lines 629-637): `ema` starts at
`values[0]` and every element (the first included) is folded with
`ema = value*k + ema*(1-k)`. -/
def computeEmaGo (k ema : ℚ) : List ℚ → List ℚ
  | [] => []
  | v :: rest =>
    let e := v * k + ema * (1 - k)
    e :: computeEmaGo k e rest

/-- `compute_ema` (context_store.py lines 616-637). -/
def compute_ema (values : List ℚ) (period : ℤ) : List ℚ :=
  if period ≤ 0 then values
  else
    match values with
    | [] => []
    | v :: rest => computeEmaGo (2 / ((period : ℚ) + 1)) v (v :: rest)

/-- Specification predicate: the sections of `after` other than the one named
by the update equal those of the pre-existing record `before` (dataclass
defaults when the date had no record). -/
def unrelatedSectionsEq (before : Option DailySnapshot) (after : DailySnapshot) :
    FieldUpdate → Prop
  | FieldUpdate.nutrition _ =>
    after.health = ((before.map fun e => e.health).getD {}) ∧
      after.workout = ((before.map fun e => e.workout).getD {})
  | FieldUpdate.health _ =>
    after.nutrition = ((before.map fun e => e.nutrition).getD {}) ∧
      after.workout = ((before.map fun e => e.workout).getD {})
  | FieldUpdate.workout _ =>
    after.nutrition = ((before.map fun e => e.nutrition).getD {}) ∧
      after.health = ((before.map fun e => e.health).getD {})

/-- Specification predicate: the updated section of `after` holds exactly the
value passed to the update. -/
def updatedSectionIs (after : DailySnapshot) : FieldUpdate → Prop
  | FieldUpdate.nutrition v => after.nutrition = v
  | FieldUpdate.health v => after.health = v
  | FieldUpdate.workout v => after.workout = v

/-- Specification predicate: two insights agree on every field other than the
lifecycle fields (`surfaced_at`, `engagement`, `dismissed_at`,
`user_feedback`). -/
def insightNonLifecycleEq (a b : Insight) : Prop :=
  a.id = b.id ∧ a.created_at = b.created_at ∧ a.category = b.category ∧
    a.tier = b.tier ∧ a.title = b.title ∧ a.body = b.body ∧
    a.supporting_data = b.supporting_data ∧ a.importance = b.importance ∧
    a.confidence = b.confidence ∧ a.novelty = b.novelty ∧
    a.actionability = b.actionability ∧
    a.suggested_actions = b.suggested_actions ∧
    a.conversation_context = b.conversation_context

/-- Sample data: a stored record for 2025-01-02 already synced from the
health feed. -/
def sampleCtx : CtxGlobal :=
  { file := FileContent.valid
      { snapshots :=
          [("2025-01-02", { date := "2025-01-02", sources_synced := ["health"] })] } }

/-- Sample data: an insight with engagement still open. -/
def sampleInsightA : Insight :=
  { id := "a", created_at := "2025-01-01T00:00:00", category := "trend",
    tier := 2, title := "TA", body := "BA",
    importance := 1, confidence := 1, novelty := 1, actionability := 1 }

/-- Sample data: a second, unrelated insight. -/
def sampleInsightB : Insight :=
  { id := "b", created_at := "2025-01-02T00:00:00", category := "nudge",
    tier := 3, title := "TB", body := "BB",
    importance := 1, confidence := 1, novelty := 1, actionability := 1 }

/-- Sample data: a store holding the two sample insights. -/
def sampleStore : ContextStore :=
  { insights := [sampleInsightA, sampleInsightB] }

end context_store

namespace exercise_store

/-- `ExercisePerformance` dataclass (exercise_store.py lines 36-44).  The
`date` string is modelled by its day ordinal: the code only ever uses dates
through `strptime` followed by day subtraction. -/
structure ExercisePerformance where
  date : ℤ
  best_weight_lbs : ℚ
  best_reps : ℤ
  total_sets : ℤ
  e1rm : ℚ
deriving DecidableEq

/-- Python `round` to the nearest integer, ties to the even integer. -/
def roundHalfEven (q : ℚ) : ℤ :=
  let f := ⌊q⌋
  let r := q - (f : ℚ)
  if r < 1/2 then f
  else if 1/2 < r then f + 1
  else if 2 ∣ f then f else f + 1

/-- Python `round(x, 1)`. -/
def round1 (q : ℚ) : ℚ := (roundHalfEven (q * 10) : ℚ) / 10

/-- The x-values of the regression: days elapsed since the first
performance. -/
def olsXs (performances : List ExercisePerformance) : List ℚ :=
  match performances with
  | [] => []
  | p0 :: _ => performances.map (fun p => ((p.date - p0.date : ℤ) : ℚ))

/-- Numerator `Σ (x - x̄)(y - ȳ)` of the shared ordinary-least-squares block
(exercise_store.py lines 392-397 and 465-470). -/
def olsNum (performances : List ExercisePerformance) : ℚ :=
  let n : ℚ := performances.length
  let xs := olsXs performances
  let ys := performances.map (fun p => p.e1rm)
  let x_mean := xs.sum / n
  let y_mean := ys.sum / n
  ((xs.zip ys).map (fun xy => (xy.1 - x_mean) * (xy.2 - y_mean))).sum

/-- Denominator `Σ (x - x̄)²` of the shared ordinary-least-squares block. -/
def olsDen (performances : List ExercisePerformance) : ℚ :=
  let n : ℚ := performances.length
  let xs := olsXs performances
  let x_mean := xs.sum / n
  (xs.map (fun x => (x - x_mean) ^ 2)).sum

/-- `round(slope_per_day * 30, 1)`: the per-30-days rate both trend paths
report. -/
def olsSlope30 (performances : List ExercisePerformance) : ℚ :=
  round1 (olsNum performances / olsDen performances * 30)

/-- Day span between the first and last performance,
`(last_date - first_date).days`. -/
def perfSpan (performances : List ExercisePerformance) : ℤ :=
  match performances with
  | [] => 0
  | p0 :: _ => (performances.getLastD p0).date - p0.date

/-- `_calculate_improvement` (exercise_store.py lines 359-404): `None` below
5 points or a 14-day span, or with zero x-variance; otherwise the OLS slope
as a per-30-days rate. -/
def calculate_improvement (performances : List ExercisePerformance) : Option ℚ :=
  if performances.length < 5 then none
  else if perfSpan performances < 14 then none
  else if olsDen performances = 0 then none
  else some (olsSlope30 performances)

/-- The trend block of `get_exercise_chart_data` (exercise_store.py lines
451-475): `trend` stays `None` below 3 points or with non-positive
x-variance; there is no span requirement on this path. -/
def chart_trend (performances : List ExercisePerformance) : Option ℚ :=
  if performances.length ≥ 3 then
    if 0 < olsDen performances then some (olsSlope30 performances) else none
  else none

/-- Sample data: five performances spanning twenty days, gaining 2 lbs of
e1RM every five days. -/
def samplePerfs : List ExercisePerformance :=
  [⟨0, 100, 5, 3, 100⟩, ⟨5, 102, 5, 3, 102⟩, ⟨10, 104, 5, 3, 104⟩,
   ⟨15, 106, 5, 3, 106⟩, ⟨20, 108, 5, 3, 108⟩]

end exercise_store
namespace scheduler

/-- A forced run always proceeds, and the first state it persists is the
input state with the running flag raised. -/
theorem run_insight_generation_force_head (st : SchedulerState) (now : ℚ)
    (gen : GenOutcome) :
    ((run_insight_generation st now true gen).2).head? =
      some { st with is_generating := true, generation_error := none } := by
  cases gen <;> simp [run_insight_generation]

/-- Claim C1, counterexample: the claim says no persisted scheduler state
contains a running/is-generating indicator, but the very first state that
`run_insight_generation` saves (from the default state, unforced) serializes
with `is_generating = true`. -/
theorem run_insight_generation_serializes_running_flag :
    ("is_generating", SJson.bool true) ∈
      SchedulerState.to_dict
        (((run_insight_generation initState 0 false (GenOutcome.success 3 2)).2).getD 0 initState) := by
  decide

/-- Claim C1, amended: the running flag IS written to persisted scheduler
state.  Every forced (hence always-proceeding) run first persists a state
whose serialization contains `is_generating = true`; if that state is what a
restart reloads, a subsequent non-forced run is rejected as already running
purely because of the stale flag, regardless of timestamps. -/
theorem run_insight_generation_persists_running_flag
    (st : SchedulerState) (now now2 : ℚ) (gen gen2 : GenOutcome)
    (marked : SchedulerState)
    (h : ((run_insight_generation st now true gen).2).head? = some marked) :
    ("is_generating", SJson.bool true) ∈ marked.to_dict ∧
    marked.is_generating = true ∧
    (run_insight_generation marked now2 false gen2).1 =
      RunResult.alreadyRunning marked.last_insight_generation := by
  rw [run_insight_generation_force_head] at h
  obtain rfl : ({ st with is_generating := true, generation_error := none } : SchedulerState) = marked :=
    Option.some.inj h
  refine ⟨?_, rfl, ?_⟩
  · simp [SchedulerState.to_dict]
  · cases gen2 <;> simp [run_insight_generation]

/-- Claim C1, witness for the amended theorem at a concrete marked state. -/
theorem run_insight_generation_persists_running_flag_witness :
    ("is_generating", SJson.bool true) ∈
      SchedulerState.to_dict { initState with is_generating := true, generation_error := none } ∧
    ({ initState with is_generating := true, generation_error := none } : SchedulerState).is_generating = true ∧
    (run_insight_generation { initState with is_generating := true, generation_error := none } 0 false (GenOutcome.success 1 1)).1 =
      RunResult.alreadyRunning ({ initState with is_generating := true, generation_error := none } : SchedulerState).last_insight_generation :=
  run_insight_generation_persists_running_flag initState 0 0 (GenOutcome.success 1 1)
    (GenOutcome.success 1 1) _ (by decide)

/-- Claim C2, counterexample: with the running flag set, a forced
`run_insight_generation` does NOT report already-running; it proceeds with a
new generation and writes state. -/
theorem forced_run_while_generating_proceeds :
    (run_insight_generation { initState with is_generating := true } 0 true (GenOutcome.success 2 1)).1
        = RunResult.success 2 1 ∧
    (run_insight_generation { initState with is_generating := true } 0 true (GenOutcome.success 2 1)).2 ≠ [] := by
  decide

/-- Claim C2, amended: `force` bypasses BOTH the interval gate and the
concurrent-run guard.  While a run is in flight, only a non-forced call
returns already-running with no generation and no state write; a forced call
proceeds and writes state. -/
theorem force_bypasses_running_guard (st : SchedulerState) (now : ℚ) (gen : GenOutcome)
    (h : st.is_generating = true) :
    (run_insight_generation st now false gen).1 = RunResult.alreadyRunning st.last_insight_generation ∧
    (run_insight_generation st now false gen).2 = [] ∧
    (run_insight_generation st now true gen).2 ≠ [] := by
  refine ⟨?_, ?_, ?_⟩ <;> cases gen <;> simp [run_insight_generation, h]

/-- Claim C2, witness for the amended theorem at a concrete busy state. -/
theorem force_bypasses_running_guard_witness :
    (run_insight_generation { initState with is_generating := true } 0 false (GenOutcome.success 1 1)).1
        = RunResult.alreadyRunning ({ initState with is_generating := true } : SchedulerState).last_insight_generation ∧
    (run_insight_generation { initState with is_generating := true } 0 false (GenOutcome.success 1 1)).2 = [] ∧
    (run_insight_generation { initState with is_generating := true } 0 true (GenOutcome.success 1 1)).2 ≠ [] :=
  force_bypasses_running_guard { initState with is_generating := true } 0 (GenOutcome.success 1 1) rfl

/-- Claim C7: with the last insight generation 1 hour ago and a 6-hour
interval (and no run in flight), a non-forced run is skipped reporting
hours-since 1 and remaining wait 5 hours with no generation and no state
write, while a forced run proceeds. -/
theorem cadence_gate_one_hour_of_six (st : SchedulerState) (last now : ℚ) (gen : GenOutcome)
    (hlast : st.last_insight_generation = some last)
    (hnow : now - last = 1)
    (hint : st.insight_generation_interval_hours = 6)
    (hrun : st.is_generating = false) :
    (run_insight_generation st now false gen).1 = RunResult.skipped 1 5 ∧
    (run_insight_generation st now false gen).2 = [] ∧
    (run_insight_generation st now true gen).2 ≠ [] := by
  refine ⟨?_, ?_, ?_⟩ <;> cases gen <;>
    simp [run_insight_generation, hlast, hnow, hint, hrun] <;> norm_num

/-- Claim C7, witness: last generation at time 0, current time 1 hour. -/
theorem cadence_gate_one_hour_of_six_witness :
    (run_insight_generation { initState with last_insight_generation := some 0 } 1 false (GenOutcome.success 1 2)).1
        = RunResult.skipped 1 5 ∧
    (run_insight_generation { initState with last_insight_generation := some 0 } 1 false (GenOutcome.success 1 2)).2 = [] ∧
    (run_insight_generation { initState with last_insight_generation := some 0 } 1 true (GenOutcome.success 1 2)).2 ≠ [] :=
  cadence_gate_one_hour_of_six { initState with last_insight_generation := some 0 } 0 1
    (GenOutcome.success 1 2) rfl (by norm_num) rfl rfl

end scheduler


namespace context_store

/-- Dict lookup after assignment at the same key finds the new value. -/
theorem lookupD_insertD_self {β : Type} (key : String) (v : β) (l : List (String × β)) :
    lookupD key (insertD key v l) = some v := by
  induction l with
  | nil => simp [insertD, lookupD]
  | cons kv rest ih =>
    by_cases h : kv.1 = key
    · simp [insertD, lookupD, h]
    · simp [insertD, lookupD, h, ih]

/-- Dict lookup at a different key is unaffected by an assignment. -/
theorem lookupD_insertD_ne {β : Type} (k key : String) (v : β) (l : List (String × β))
    (h : k ≠ key) :
    lookupD k (insertD key v l) = lookupD k l := by
  have h' : ¬key = k := fun hh => h hh.symm
  induction l with
  | nil => simp [insertD, lookupD, h']
  | cons kv rest ih =>
    by_cases hk : kv.1 = key
    · simp [insertD, lookupD, hk, h']
    · simp [insertD, lookupD, hk, ih]

end context_store

namespace context_store

/-- Claim C4: read-after-write cache consistency.  Immediately after a
successful `upsert_snapshot`, a `get_snapshot` for the written date issued
before the cache TTL expires returns exactly the written snapshot (fresh
`last_updated`, all other fields as given), and the read is served from the
repopulated cache without changing the module state. -/
theorem upsert_snapshot_read_after_write
    (g : CtxGlobal) (snapshot : DailySnapshot) (t tr : ℚ) (nowIso : String)
    (h : tr - t < CACHE_TTL_SECONDS) :
    (get_snapshot (upsert_snapshot g snapshot t nowIso) snapshot.date tr).1 =
      some { snapshot with last_updated := nowIso } ∧
    (get_snapshot (upsert_snapshot g snapshot t nowIso) snapshot.date tr).2 =
      upsert_snapshot g snapshot t nowIso := by
  unfold get_snapshot load_store upsert_snapshot
  simp [h, lookupD_insertD_self]

/-- Claim C5: corrupt-file recovery.  With an unparseable store file (and a
cold cache), loading yields a fresh empty store instead of an error, so
`get_snapshot` returns none for any date; a subsequent `upsert_snapshot`
succeeds, replacing the corrupt file with a valid store from which the
written snapshot can be read back. -/
theorem corrupt_file_recovery
    (g : CtxGlobal) (date_str : String) (snapshot : DailySnapshot)
    (now t tr : ℚ) (nowIso : String)
    (hfile : g.file = FileContent.corrupt) (hcache : g.cache = none) :
    (load_store g now).1 = ({} : ContextStore) ∧
    (get_snapshot g date_str now).1 = none ∧
    (upsert_snapshot g snapshot t nowIso).file.isValid = true ∧
    (get_snapshot (upsert_snapshot g snapshot t nowIso) snapshot.date tr).1 =
      some { snapshot with last_updated := nowIso } := by
  refine ⟨?_, ?_, ?_, ?_⟩
  · unfold load_store
    simp [hcache, hfile, readContextFile]
  · unfold get_snapshot load_store
    simp [hcache, hfile, readContextFile, lookupD]
  · unfold upsert_snapshot
    simp [FileContent.isValid]
  · unfold get_snapshot load_store upsert_snapshot
    by_cases httl : tr - t < CACHE_TTL_SECONDS
    · simp [httl, lookupD_insertD_self]
    · simp [httl, readContextFile, lookupD_insertD_self]

end context_store

namespace context_store

/-- Claim C4 witness. -/
theorem upsert_snapshot_read_after_write_witness :
    (get_snapshot (upsert_snapshot { file := FileContent.missing } { date := "2025-01-02" } 10 "I") "2025-01-02" 12).1 =
      some { ({ date := "2025-01-02" } : DailySnapshot) with last_updated := "I" } ∧
    (get_snapshot (upsert_snapshot { file := FileContent.missing } { date := "2025-01-02" } 10 "I") "2025-01-02" 12).2 =
      upsert_snapshot { file := FileContent.missing } { date := "2025-01-02" } 10 "I" :=
  upsert_snapshot_read_after_write { file := FileContent.missing } { date := "2025-01-02" } 10 12 "I"
    (by norm_num [CACHE_TTL_SECONDS])

/-- Claim C5 witness. -/
theorem corrupt_file_recovery_witness :
    (load_store { file := FileContent.corrupt } 0).1 = ({} : ContextStore) ∧
    (get_snapshot ({ file := FileContent.corrupt } : CtxGlobal) "2025-01-01" 0).1 = none ∧
    (upsert_snapshot { file := FileContent.corrupt } { date := "2025-01-02" } 1 "I").file.isValid = true ∧
    (get_snapshot (upsert_snapshot { file := FileContent.corrupt } { date := "2025-01-02" } 1 "I") "2025-01-02" 2).1 =
      some { ({ date := "2025-01-02" } : DailySnapshot) with last_updated := "I" } :=
  corrupt_file_recovery { file := FileContent.corrupt } "2025-01-01" { date := "2025-01-02" }
    0 1 2 "I" rfl rfl

end context_store

namespace context_store

/-- Characterization of a single atomic field update at the updated date. -/
theorem atomic_update_lookup (g : CtxGlobal) (date_str : String) (upd : FieldUpdate)
    (source_tag : String) (t : ℚ) (iso : String) :
    lookupD date_str (readContextFile
        (atomic_update_snapshot g date_str upd source_tag t iso).file).snapshots =
      some (applyFieldUpdate
        { date := date_str
          nutrition := ((lookupD date_str (readContextFile g.file).snapshots).map fun e => e.nutrition).getD {}
          health := ((lookupD date_str (readContextFile g.file).snapshots).map fun e => e.health).getD {}
          workout := ((lookupD date_str (readContextFile g.file).snapshots).map fun e => e.workout).getD {}
          last_updated := iso
          sources_synced := mergeTag source_tag
            (((lookupD date_str (readContextFile g.file).snapshots).map fun e => e.sources_synced).getD []) } upd) := by
  unfold atomic_update_snapshot
  simp [readContextFile, lookupD_insertD_self]

/-- An atomic field update leaves every other date's record untouched. -/
theorem atomic_update_lookup_ne (g : CtxGlobal) (date_str : String) (upd : FieldUpdate)
    (source_tag : String) (t : ℚ) (iso : String) (d : String) (hd : d ≠ date_str) :
    lookupD d (readContextFile
        (atomic_update_snapshot g date_str upd source_tag t iso).file).snapshots =
      lookupD d (readContextFile g.file).snapshots := by
  unfold atomic_update_snapshot
  simp [readContextFile, lookupD_insertD_ne _ _ _ _ hd]

/-- An atomic field update leaves the insight list untouched. -/
theorem atomic_update_insights (g : CtxGlobal) (date_str : String) (upd : FieldUpdate)
    (source_tag : String) (t : ℚ) (iso : String) :
    (readContextFile (atomic_update_snapshot g date_str upd source_tag t iso).file).insights =
      (readContextFile g.file).insights := by
  unfold atomic_update_snapshot
  simp [readContextFile]

/-- Merging the same tag twice into a set-like list leaves one copy. -/
theorem count_mergeTag_twice (source_tag : String) (s : List String)
    (h : s.count source_tag ≤ 1) :
    (mergeTag source_tag (mergeTag source_tag s)).count source_tag = 1 := by
  unfold mergeTag
  by_cases hm : source_tag ∈ s
  · have h1 : 0 < s.count source_tag := List.count_pos_iff.2 hm
    simp [hm]
    omega
  · have h0 : s.count source_tag = 0 := List.count_eq_zero_of_not_mem hm
    have hmem : source_tag ∈ s ++ [source_tag] := by simp
    simp [hm, hmem, List.count_append, h0]

end context_store

namespace context_store

/-- Claim C3: `updateField` is an idempotent merge.  Calling
`_atomic_update_snapshot` twice with the same date, field, value and source
tag yields a record whose `sources_synced` holds the tag exactly once
(given the set-like pre-state), whose updated section holds the given value,
whose other sections equal the pre-existing record (or defaults), with every
other date and the insight list untouched. -/
theorem atomic_update_idempotent
    (g : CtxGlobal) (date_str source_tag : String) (upd : FieldUpdate)
    (t1 t2 : ℚ) (iso1 iso2 : String)
    (hcount : (((lookupD date_str (readContextFile g.file).snapshots).map
        fun e => e.sources_synced).getD []).count source_tag ≤ 1) :
    ∃ snap2,
      lookupD date_str (readContextFile
        (atomic_update_snapshot (atomic_update_snapshot g date_str upd source_tag t1 iso1)
          date_str upd source_tag t2 iso2).file).snapshots = some snap2 ∧
      snap2.date = date_str ∧
      snap2.sources_synced.count source_tag = 1 ∧
      updatedSectionIs snap2 upd ∧
      unrelatedSectionsEq (lookupD date_str (readContextFile g.file).snapshots) snap2 upd ∧
      (∀ d, d ≠ date_str →
        lookupD d (readContextFile
          (atomic_update_snapshot (atomic_update_snapshot g date_str upd source_tag t1 iso1)
            date_str upd source_tag t2 iso2).file).snapshots =
          lookupD d (readContextFile g.file).snapshots) ∧
      (readContextFile
        (atomic_update_snapshot (atomic_update_snapshot g date_str upd source_tag t1 iso1)
          date_str upd source_tag t2 iso2).file).insights =
        (readContextFile g.file).insights := by
  have hframe : ∀ d, d ≠ date_str →
      lookupD d (readContextFile
        (atomic_update_snapshot (atomic_update_snapshot g date_str upd source_tag t1 iso1)
          date_str upd source_tag t2 iso2).file).snapshots =
        lookupD d (readContextFile g.file).snapshots := by
    intro d hd
    rw [atomic_update_lookup_ne _ _ _ _ _ _ _ hd, atomic_update_lookup_ne _ _ _ _ _ _ _ hd]
  have hins :
      (readContextFile
        (atomic_update_snapshot (atomic_update_snapshot g date_str upd source_tag t1 iso1)
          date_str upd source_tag t2 iso2).file).insights =
        (readContextFile g.file).insights := by
    rw [atomic_update_insights, atomic_update_insights]
  have h1 := atomic_update_lookup g date_str upd source_tag t1 iso1
  have h2 := atomic_update_lookup (atomic_update_snapshot g date_str upd source_tag t1 iso1)
    date_str upd source_tag t2 iso2
  rw [h1] at h2
  cases upd with
  | nutrition v =>
    simp only [applyFieldUpdate, Option.map_some', Option.getD_some] at h2
    exact ⟨_, h2, rfl, count_mergeTag_twice _ _ hcount, rfl, ⟨rfl, rfl⟩, hframe, hins⟩
  | health v =>
    simp only [applyFieldUpdate, Option.map_some', Option.getD_some] at h2
    exact ⟨_, h2, rfl, count_mergeTag_twice _ _ hcount, rfl, ⟨rfl, rfl⟩, hframe, hins⟩
  | workout v =>
    simp only [applyFieldUpdate, Option.map_some', Option.getD_some] at h2
    exact ⟨_, h2, rfl, count_mergeTag_twice _ _ hcount, rfl, ⟨rfl, rfl⟩, hframe, hins⟩

end context_store

namespace context_store

/-- Claim C3 witness. -/
theorem atomic_update_idempotent_witness :
    ∃ snap2,
      lookupD "2025-01-02" (readContextFile
        (atomic_update_snapshot (atomic_update_snapshot sampleCtx "2025-01-02"
            (FieldUpdate.nutrition { calories := 500 }) "nutrition" 1 "I1")
          "2025-01-02" (FieldUpdate.nutrition { calories := 500 }) "nutrition" 2 "I2").file).snapshots = some snap2 ∧
      snap2.date = "2025-01-02" ∧
      snap2.sources_synced.count "nutrition" = 1 ∧
      updatedSectionIs snap2 (FieldUpdate.nutrition { calories := 500 }) ∧
      unrelatedSectionsEq (lookupD "2025-01-02" (readContextFile sampleCtx.file).snapshots)
        snap2 (FieldUpdate.nutrition { calories := 500 }) ∧
      (∀ d, d ≠ "2025-01-02" →
        lookupD d (readContextFile
          (atomic_update_snapshot (atomic_update_snapshot sampleCtx "2025-01-02"
              (FieldUpdate.nutrition { calories := 500 }) "nutrition" 1 "I1")
            "2025-01-02" (FieldUpdate.nutrition { calories := 500 }) "nutrition" 2 "I2").file).snapshots =
          lookupD d (readContextFile sampleCtx.file).snapshots) ∧
      (readContextFile
        (atomic_update_snapshot (atomic_update_snapshot sampleCtx "2025-01-02"
            (FieldUpdate.nutrition { calories := 500 }) "nutrition" 1 "I1")
          "2025-01-02" (FieldUpdate.nutrition { calories := 500 }) "nutrition" 2 "I2").file).insights =
        (readContextFile sampleCtx.file).insights :=
  atomic_update_idempotent sampleCtx "2025-01-02" "nutrition"
    (FieldUpdate.nutrition { calories := 500 }) 1 2 "I1" "I2" (by decide)

end context_store

namespace context_store

/-- The EMA fold preserves length. -/
theorem computeEmaGo_length (k : ℚ) (vs : List ℚ) :
    ∀ e : ℚ, (computeEmaGo k e vs).length = vs.length := by
  induction vs with
  | nil => intro e; simp [computeEmaGo]
  | cons v rest ih => intro e; simp [computeEmaGo, ih]

/-- The EMA fold satisfies the defining recurrence at every later index. -/
theorem computeEmaGo_getD_succ (k : ℚ) (vs : List ℚ) :
    ∀ (e : ℚ) (i : ℕ), i + 1 < vs.length →
      (computeEmaGo k e vs).getD (i + 1) 0 =
        vs.getD (i + 1) 0 * k + (computeEmaGo k e vs).getD i 0 * (1 - k) := by
  induction vs with
  | nil => intro e i h; simp at h
  | cons v rest ih =>
    intro e i h
    cases i with
    | zero =>
      cases rest with
      | nil => simp at h
      | cons w rest' => simp [computeEmaGo]
    | succ j =>
      have hj : j + 1 < rest.length := by
        simpa using Nat.lt_of_succ_lt_succ h
      simpa [computeEmaGo] using ih (v * k + e * (1 - k)) j hj

/-- Claim C6: EMA correctness.  For a non-empty series and positive period,
`compute_ema` preserves length, its first element equals the first raw value,
every later element obeys `ema[i] = value[i]*k + ema[i-1]*(1-k)` with
`k = 2/(period+1)`, and the two spec examples evaluate as stated:
`compute_ema [10,10,10] 1 = [10,10,10]` and `compute_ema [10,20] 9 = [10,12]`. -/
theorem compute_ema_spec (values : List ℚ) (period : ℤ)
    (hne : values ≠ []) (hp : 0 < period) :
    (compute_ema values period).length = values.length ∧
    (compute_ema values period).head? = values.head? ∧
    (∀ i : ℕ, i + 1 < values.length →
      (compute_ema values period).getD (i + 1) 0 =
        values.getD (i + 1) 0 * (2 / ((period : ℚ) + 1)) +
          (compute_ema values period).getD i 0 * (1 - 2 / ((period : ℚ) + 1))) ∧
    compute_ema [10, 10, 10] 1 = [10, 10, 10] ∧
    compute_ema [10, 20] 9 = [10, 12] := by
  have hple : ¬ period ≤ 0 := not_le.2 hp
  refine ⟨?_, ?_, ?_, ?_, ?_⟩
  · cases values with
    | nil => exact absurd rfl hne
    | cons v rest => simp [compute_ema, hple, computeEmaGo_length]
  · cases values with
    | nil => exact absurd rfl hne
    | cons v rest =>
      have : v * (2 / ((period : ℚ) + 1)) + v * (1 - 2 / ((period : ℚ) + 1)) = v := by ring
      simp [compute_ema, hple, computeEmaGo, this]
  · intro i hi
    cases values with
    | nil => exact absurd rfl hne
    | cons v rest =>
      simp only [compute_ema, if_neg hple]
      exact computeEmaGo_getD_succ _ _ _ _ hi
  · norm_num [compute_ema, computeEmaGo]
  · norm_num [compute_ema, computeEmaGo]

/-- Claim C6 witness. -/
theorem compute_ema_spec_witness :
    (compute_ema [10, 20] 9).length = ([10, 20] : List ℚ).length ∧
    (compute_ema [10, 20] 9).head? = ([10, 20] : List ℚ).head? :=
  ⟨(compute_ema_spec [10, 20] 9 (by decide) (by decide)).1,
   (compute_ema_spec [10, 20] 9 (by decide) (by decide)).2.1⟩

end context_store

namespace context_store

/-- The non-lifecycle comparison is reflexive. -/
theorem insightNonLifecycleEq_refl (i : Insight) : insightNonLifecycleEq i i :=
  ⟨rfl, rfl, rfl, rfl, rfl, rfl, rfl, rfl, rfl, rfl, rfl, rfl, rfl⟩

/-- The engagement mutation touches only lifecycle fields. -/
theorem applyEngagement_nonLifecycle (i : Insight) (engagement : String)
    (feedback : Option String) (nowIso : String) :
    insightNonLifecycleEq (applyEngagement i engagement feedback nowIso) i :=
  ⟨rfl, rfl, rfl, rfl, rfl, rfl, rfl, rfl, rfl, rfl, rfl, rfl, rfl⟩

/-- The engagement loop preserves the list length. -/
theorem updateEngagementList_length (insight_id engagement : String)
    (feedback : Option String) (nowIso : String) :
    ∀ l : List Insight,
      (updateEngagementList insight_id engagement feedback nowIso l).length = l.length := by
  intro l
  induction l with
  | nil => simp [updateEngagementList]
  | cons i rest ih =>
    by_cases h : i.id = insight_id <;> simp [updateEngagementList, h, ih]

/-- Elementwise frame property of the engagement loop. -/
theorem updateEngagementList_get (insight_id engagement : String)
    (feedback : Option String) (nowIso : String) :
    ∀ (l : List Insight) (j : ℕ) (hj : j < l.length)
      (hj' : j < (updateEngagementList insight_id engagement feedback nowIso l).length),
      insightNonLifecycleEq
        ((updateEngagementList insight_id engagement feedback nowIso l).get ⟨j, hj'⟩)
        (l.get ⟨j, hj⟩) ∧
      ((l.get ⟨j, hj⟩).id ≠ insight_id →
        (updateEngagementList insight_id engagement feedback nowIso l).get ⟨j, hj'⟩ =
          l.get ⟨j, hj⟩) := by
  intro l
  induction l with
  | nil => intro j hj hj'; simp at hj
  | cons i rest ih =>
    intro j hj hj'
    by_cases h : i.id = insight_id
    · cases j with
      | zero =>
        refine ⟨?_, ?_⟩
        · simpa [updateEngagementList, h] using
            applyEngagement_nonLifecycle i engagement feedback nowIso
        · intro hne
          exact absurd h (by simpa using hne)
      | succ j' =>
        have hj2 : j' < rest.length := Nat.lt_of_succ_lt_succ hj
        have hj2' : j' < (updateEngagementList insight_id engagement feedback nowIso rest).length := by
          rw [updateEngagementList_length]; exact hj2
        constructor
        · have := insightNonLifecycleEq_refl (rest.get ⟨j', hj2⟩)
          simpa [updateEngagementList, h] using this
        · intro hne
          simp [updateEngagementList, h]
    · cases j with
      | zero =>
        refine ⟨?_, ?_⟩
        · simpa [updateEngagementList, h] using insightNonLifecycleEq_refl i
        · intro hne; simp [updateEngagementList, h]
      | succ j' =>
        have hj2 : j' < rest.length := Nat.lt_of_succ_lt_succ hj
        have hj2' : j' < (updateEngagementList insight_id engagement feedback nowIso rest).length := by
          rw [updateEngagementList_length]; exact hj2
        have := ih j' hj2 hj2'
        constructor
        · simpa [updateEngagementList, h] using this.1
        · intro hne
          have hne' : (rest.get ⟨j', hj2⟩).id ≠ insight_id := by simpa using hne
          simpa [updateEngagementList, h] using this.2 hne'

/-- With no id match the engagement loop is the identity. -/
theorem updateEngagementList_no_match (insight_id engagement : String)
    (feedback : Option String) (nowIso : String) :
    ∀ l : List Insight, (∀ i ∈ l, i.id ≠ insight_id) →
      updateEngagementList insight_id engagement feedback nowIso l = l := by
  intro l
  induction l with
  | nil => intro _; simp [updateEngagementList]
  | cons i rest ih =>
    intro hall
    have hi : i.id ≠ insight_id := hall i (by simp)
    have hrest := ih fun x hx => hall x (by simp [hx])
    simp [updateEngagementList, hi, hrest]

end context_store

namespace context_store

/-- Claim C9: insights are append-only outside lifecycle fields.
`update_insight_engagement` leaves the snapshots untouched and the insight
list the same length; every insight keeps its non-lifecycle fields (id,
created_at, category, tier, title, body, supporting data, scores, actions,
conversation context); insights with a non-matching id are fully unchanged;
and when no id matches, the whole list is unchanged. -/
theorem update_insight_engagement_frame
    (store : ContextStore) (insight_id engagement : String)
    (feedback : Option String) (nowIso : String) :
    (update_insight_engagement store insight_id engagement feedback nowIso).snapshots =
      store.snapshots ∧
    (update_insight_engagement store insight_id engagement feedback nowIso).insights.length =
      store.insights.length ∧
    (∀ (j : ℕ) (hj : j < store.insights.length)
      (hj' : j < (update_insight_engagement store insight_id engagement feedback nowIso).insights.length),
      insightNonLifecycleEq
        ((update_insight_engagement store insight_id engagement feedback nowIso).insights.get ⟨j, hj'⟩)
        (store.insights.get ⟨j, hj⟩) ∧
      ((store.insights.get ⟨j, hj⟩).id ≠ insight_id →
        (update_insight_engagement store insight_id engagement feedback nowIso).insights.get ⟨j, hj'⟩ =
          store.insights.get ⟨j, hj⟩)) ∧
    ((∀ i ∈ store.insights, i.id ≠ insight_id) →
      (update_insight_engagement store insight_id engagement feedback nowIso).insights =
        store.insights) := by
  refine ⟨rfl, updateEngagementList_length _ _ _ _ _, ?_, ?_⟩
  · intro j hj hj'
    exact updateEngagementList_get insight_id engagement feedback nowIso store.insights j hj hj'
  · intro hall
    exact updateEngagementList_no_match insight_id engagement feedback nowIso store.insights hall

/-- Claim C9 witness. -/
theorem update_insight_engagement_frame_witness :
    (update_insight_engagement sampleStore "a" "viewed" none "T").snapshots =
      sampleStore.snapshots ∧
    (update_insight_engagement sampleStore "a" "viewed" none "T").insights.length =
      sampleStore.insights.length :=
  ⟨(update_insight_engagement_frame sampleStore "a" "viewed" none "T").1,
   (update_insight_engagement_frame sampleStore "a" "viewed" none "T").2.1⟩

end context_store

namespace context_store

/-- The ranking relation is transitive. -/
theorem insightOrder_trans (a b c : Insight) :
    insightOrder a b → insightOrder b c → insightOrder a c := by
  unfold insightOrder
  rintro (hab | ⟨hab1, hab2⟩) (hbc | ⟨hbc1, hbc2⟩)
  · exact Or.inl (lt_trans hbc hab)
  · exact Or.inl (hbc1 ▸ hab)
  · exact Or.inl (hab1.symm ▸ hbc)
  · exact Or.inr ⟨hab1.trans hbc1, le_trans hbc2 hab2⟩

/-- The ranking relation is total. -/
theorem insightOrder_total (a b : Insight) : insightOrder a b ∨ insightOrder b a := by
  unfold insightOrder
  rcases lt_trichotomy (a.importance * a.confidence) (b.importance * b.confidence) with h | h | h
  · exact Or.inr (Or.inl h)
  · rcases le_total b.created_at a.created_at with h2 | h2
    · exact Or.inl (Or.inr ⟨h, h2⟩)
    · exact Or.inr (Or.inr ⟨h.symm, h2⟩)
  · exact Or.inl (Or.inl h)

/-- Claim C10, amended: the `get_insights` query contract under Python
truthiness.  At most `limit` insights are returned, all drawn from the store;
each satisfies every non-falsy filter (a `None`/empty category and a
`None`/zero tier act as no filter); a truthy `dismissed_at` is excluded when
`include_dismissed` is false; and the result is ordered by
importance*confidence descending with ties broken by `created_at`
descending. -/
theorem get_insights_contract (store : ContextStore) (category : Option String)
    (tier : Option ℤ) (limit : ℕ) (include_dismissed : Bool) :
    (get_insights store category tier limit include_dismissed).length ≤ limit ∧
    (∀ i ∈ get_insights store category tier limit include_dismissed,
      i ∈ store.insights ∧
      (∀ c, category = some c → c ≠ "" → i.category = c) ∧
      (∀ tv, tier = some tv → tv ≠ 0 → i.tier = tv) ∧
      (include_dismissed = false → (i.dismissed_at = none ∨ i.dismissed_at = some ""))) ∧
    List.Pairwise insightOrder (get_insights store category tier limit include_dismissed) := by
  refine ⟨?_, ?_, ?_⟩
  · exact List.length_take_le _ _
  · intro i hi
    have hm : i ∈ store.insights.filter (passesFilters category tier include_dismissed) :=
      List.mem_mergeSort.1 (List.take_subset _ _ hi)
    obtain ⟨hmem, hpass⟩ := List.mem_filter.1 hm
    refine ⟨hmem, ?_, ?_, ?_⟩
    · intro c hc hcne
      subst hc
      simp [passesFilters, truthyStr, truthyInt, hcne] at hpass
      exact hpass.1.1
    · intro tv ht htne
      subst ht
      simp [passesFilters, truthyStr, truthyInt, htne] at hpass
      exact hpass.1.2
    · intro hincl
      subst hincl
      simp [passesFilters, truthyStr, truthyInt] at hpass
      have hd := hpass.2
      cases hdm : i.dismissed_at with
      | none => exact Or.inl rfl
      | some s =>
        rw [hdm] at hd
        by_cases hse : s = ""
        · exact Or.inr (by rw [hse])
        · simp [hse] at hd
  · have hs := @List.sorted_mergeSort Insight insightSortLE
      (fun a b c hab hbc => by
        have := insightOrder_trans a b c (of_decide_eq_true hab) (of_decide_eq_true hbc)
        exact decide_eq_true this)
      (fun a b => by
        rcases insightOrder_total a b with h | h
        · simp [insightSortLE, decide_eq_true h]
        · simp [insightSortLE, decide_eq_true h])
      (store.insights.filter (passesFilters category tier include_dismissed))
    have hs' : List.Pairwise insightOrder
        ((store.insights.filter (passesFilters category tier include_dismissed)).mergeSort insightSortLE) :=
      hs.imp fun h => of_decide_eq_true h
    exact hs'.sublist (List.take_sublist _ _)

/-- Claim C10 counterexample: a `tier = 0` filter is silently ignored
(Python truthiness), so an insight of tier 3 is returned even though it does
not satisfy the given tier filter. -/
theorem get_insights_ignores_zero_tier_filter :
    sampleInsightB ∈ get_insights sampleStore none (some 0) 20 true ∧
    sampleInsightB.tier ≠ 0 := by
  constructor
  · unfold get_insights
    rw [List.take_of_length_le (by rw [List.length_mergeSort]; decide)]
    rw [List.mem_mergeSort]
    decide
  · decide

/-- Claim C10 witness for the amended contract at a concrete query. -/
theorem get_insights_contract_witness :
    (get_insights sampleStore (some "trend") (some 3) 5 false).length ≤ 5 ∧
    List.Pairwise insightOrder (get_insights sampleStore (some "trend") (some 3) 5 false) :=
  ⟨(get_insights_contract sampleStore (some "trend") (some 3) 5 false).1,
   (get_insights_contract sampleStore (some "trend") (some 3) 5 false).2.2⟩

end context_store

namespace exercise_store

/-- Claim C8 counterexample: the chart-data path reports a numeric trend for
three points spanning only two days, where `_calculate_improvement` (below
both thresholds) reports none. -/
theorem chart_trend_reports_below_thresholds :
    chart_trend [⟨0, 100, 5, 3, 100⟩, ⟨1, 105, 5, 3, 105⟩, ⟨2, 110, 5, 3, 110⟩] = some 150 ∧
    ([⟨0, 100, 5, 3, 100⟩, ⟨1, 105, 5, 3, 105⟩, ⟨2, 110, 5, 3, 110⟩] :
        List ExercisePerformance).length < 5 ∧
    perfSpan [⟨0, 100, 5, 3, 100⟩, ⟨1, 105, 5, 3, 105⟩, ⟨2, 110, 5, 3, 110⟩] < 14 ∧
    calculate_improvement [⟨0, 100, 5, 3, 100⟩, ⟨1, 105, 5, 3, 105⟩, ⟨2, 110, 5, 3, 110⟩] = none := by
  refine ⟨?_, by decide, by decide, by decide⟩
  norm_num [chart_trend, olsSlope30, olsNum, olsDen, olsXs, round1, roundHalfEven, List.zip]

/-- Claim C8 amended: `_calculate_improvement` enforces the thresholds, while
the chart path reports whenever there are at least 3 points with positive
x-variance, span notwithstanding. -/
theorem calculate_improvement_gating (performances : List ExercisePerformance) :
    (∀ r, calculate_improvement performances = some r →
      5 ≤ performances.length ∧ 14 ≤ perfSpan performances) ∧
    (performances.length < 5 → calculate_improvement performances = none) ∧
    (perfSpan performances < 14 → calculate_improvement performances = none) ∧
    (3 ≤ performances.length → 0 < olsDen performances →
      (chart_trend performances).isSome = true) := by
  refine ⟨?_, ?_, ?_, ?_⟩
  · intro r hr
    unfold calculate_improvement at hr
    split_ifs at hr with h1 h2 h3
    exact ⟨by omega, by omega⟩
  · intro h
    unfold calculate_improvement
    simp [h]
  · intro h
    unfold calculate_improvement
    by_cases h1 : performances.length < 5
    · simp [h1]
    · simp [h1, h]
  · intro h3 hden
    unfold chart_trend
    simp [h3, hden]

/-- Claim C8 witness: five performances spanning twenty days are past both
gates, and three points with distinct dates make the chart path report. -/
theorem calculate_improvement_gating_witness :
    5 ≤ samplePerfs.length ∧ 14 ≤ perfSpan samplePerfs ∧
    (chart_trend (samplePerfs.take 3)).isSome = true := by
  have h1 := (calculate_improvement_gating samplePerfs).1 12 (by
    norm_num [calculate_improvement, samplePerfs, perfSpan, olsSlope30, olsNum, olsDen,
      olsXs, round1, roundHalfEven, List.zip])
  have h2 := (calculate_improvement_gating (samplePerfs.take 3)).2.2.2 (by decide) (by
    norm_num [samplePerfs, olsDen, olsXs])
  exact ⟨h1.1, h1.2, h2⟩

end exercise_store
